import Mathlib

/-!
Verification of TelegramManager (src/t_addusers.py, src/t_connector.py).

The Python code is shallowly embedded: the external Telethon client is
modelled by explicit parameters carrying the outcome of each external call
(`Except PyExc ...`), Python object attributes that may be absent are
`Option` fields (attribute access on a missing field raises
`AttributeError`), and the mutable `_cached_group_types` dict is threaded
explicitly as a function `Int → Option String`.
-/

/-- Python exception values relevant to this program. -/
inductive PyExc where
  | fileNotFoundError
  | jsonDecodeError
  | keyError (k : String)
  | rpcError (msg : String)
  | nameError (n : String)
  | attributeError (a : String)
  | floodWaitError (seconds : Nat)
  | peerFloodError
  | userPrivacyRestrictedError
  | chatWriteForbiddenError
  | otherError (msg : String)
deriving DecidableEq, Repr

/-- A Telegram member record as used by the code: `member.id`,
`member.username`, `member.first_name`, `member.last_name`.
Optional fields are `none` when the attribute is Python `None`. -/
structure Member where
  id : Int
  username : Option String
  first_name : Option String
  last_name : Option String
deriving DecidableEq, Repr

/-- Embeds the filter in `add_users_from_group` (src/t_addusers.py
lines 102-112): `target_member_ids` is the set of ids of the target
members, `skip_ids` is its union with `users_to_skip`, and
`users_to_add` keeps the source members whose id is not in `skip_ids`. -/
def users_to_add (source_members target_members : List Member)
    (users_to_skip : List Int) : List Member :=
  let target_member_ids := target_members.map Member.id
  let skip_ids := fun i => target_member_ids.contains i || users_to_skip.contains i
  source_members.filter (fun m => !(skip_ids m.id))

/-- A Telegram entity as returned by `client.get_entity`. Fields are
`Option`: `none` models a Python object lacking that attribute (a User
or a basic-group Chat has no `megagroup`), so that attribute access
raises `AttributeError`; `some b` is an attribute whose truthiness is
`b`. -/
structure Entity where
  megagroup : Option Bool
  broadcast : Option Bool
  title : Option String
deriving DecidableEq, Repr

/-- The `_cached_group_types` dict, as a lookup function. -/
abbrev GroupTypeCache := Int → Option String

/-- Python dict assignment `self._cached_group_types[group_id] = v`. -/
def cacheInsert (cache : GroupTypeCache) (group_id : Int) (v : String) :
    GroupTypeCache :=
  fun x => if x = group_id then some v else cache x

/-- The classification in the try-block of `get_group_type`
(src/t_addusers.py lines 70-75): `if entity.megagroup:` /
`elif entity.broadcast:` / `else`. Reading a missing attribute raises;
`broadcast` is only read when `megagroup` exists and is falsy. -/
def classifyEntity (entity : Entity) : Except PyExc String :=
  match entity.megagroup with
  | none => .error (.attributeError ("megagroup"))
  | some true => .ok ("supergroup")
  | some false =>
    match entity.broadcast with
    | none => .error (.attributeError ("broadcast"))
    | some true => .ok ("channel")
    | some false => .ok ("basic_group")

/-- `get_group_type` (src/t_addusers.py lines 55-81, identical in
src/t_connector.py lines 163-189). `entity_result` is the outcome of
the external call `await self.client.get_entity(group_id)`, consulted
only on a cache miss; that call sits OUTSIDE the try, so its failure
propagates. The try covers the classification and the dict write; its
failure is swallowed into the fallback "chat" without writing. The
verbose log line reads `entity.title` after the try. Returns the
outcome of the call (returned string or propagated exception) together
with the cache afterwards — a dict write persists even when the method
then raises. -/
def get_group_type (cache : GroupTypeCache) (group_id : Int)
    (entity_result : Except PyExc Entity) (verbose : Bool) :
    Except PyExc String × GroupTypeCache :=
  match cache group_id with
  | some v => (.ok v, cache)
  | none =>
    match entity_result with
    | .error e => (.error e, cache)
    | .ok entity =>
      let st :=
        match classifyEntity entity with
        | .ok v => (v, cacheInsert cache group_id v)
        | .error _ => ("chat", cache)
      if verbose then
        match entity.title with
        | none => (.error (.attributeError ("title")), st.2)
        | some _ => (.ok st.1, st.2)
      else (.ok st.1, st.2)

/-- The f-string `f"{user.first_name or ''} {user.last_name or ''}".strip()`:
the two names (empty when None) joined by a single space, then stripped
(`String.trim` models `str.strip`). -/
def strippedFullName (first_name last_name : Option String) : String :=
  ((first_name.getD ("")) ++ " " ++ (last_name.getD (""))).trim

/-- `get_user_display_name` (src/t_connector.py line 209), identical to
the inline expressions at src/t_addusers.py lines 115 and 127:
`user.username or f"...".strip() or "Unknown User"`, where Python `or`
yields its right operand when the left is falsy (None or empty). -/
def get_user_display_name (u : Member) : String :=
  let combined := strippedFullName u.first_name u.last_name
  match u.username with
  | some s =>
    if s = "" then (if combined = "" then "Unknown User" else combined) else s
  | none => if combined = "" then "Unknown User" else combined

/-- Per-user outcome of the membership-add request issued inside the
add loop of `add_users_from_group`. -/
inductive Outcome where
  | success
  | userPrivacyRestricted
  | peerFlood
  | floodWait (seconds : Nat)
  | otherFailure (msg : String)
deriving DecidableEq, Repr

/-- Observable actions of the add loop (log text abbreviated, the
request and sleep events carry the data that matters). -/
inductive AddEvent where
  | logInfo (msg : String)
  | logWarning (msg : String)
  | logError (msg : String)
  | addChatUserRequest (user_id : Int)
  | inviteToChannelRequest (user_id : Int)
  | sleepSeconds (seconds : Nat)
  | pacingSleep
deriving DecidableEq, Repr

/-- The per-user attempt (src/t_addusers.py lines 129-134):
`basic_group` / `chat` targets use AddChatUserRequest, the rest
InviteToChannelRequest; an info log precedes the request. -/
def attemptEvents (target_group_type : String) (u : Member) : List AddEvent :=
  let user_name := get_user_display_name u
  if target_group_type = "basic_group" ∨ target_group_type = "chat" then
    [.logInfo ("Adding " ++ user_name ++ " to basic group"),
     .addChatUserRequest u.id]
  else
    [.logInfo ("Inviting " ++ user_name ++ " to " ++ target_group_type),
     .inviteToChannelRequest u.id]

/-- The tail of each iteration (lines 146-147): the pacing log and the
randomized sleep, executed unless the loop broke. -/
def pacingEvents : List AddEvent :=
  [.logInfo ("Waiting (to mimic a human)...."), .pacingSleep]

/-- The add loop of `add_users_from_group` (lines 126-147). `outcome`
maps each user id to the result of the membership-add request for that
user. PeerFloodError logs and `break`s; FloodWaitError logs, sleeps
`e.seconds`, and falls through to the pacing sleep;
UserPrivacyRestrictedError and any other exception log and fall
through; the loop then continues with the next user. -/
def addLoop (target_group_type : String) (outcome : Int → Outcome) :
    List Member → List AddEvent
  | [] => []
  | u :: rest =>
    let user_name := get_user_display_name u
    let attempt := attemptEvents target_group_type u
    match outcome u.id with
    | .success => attempt ++ pacingEvents ++ addLoop target_group_type outcome rest
    | .userPrivacyRestricted =>
        attempt
          ++ [.logWarning ("Cannot add " ++ user_name ++ ": Privacy settings restricted.")]
          ++ pacingEvents ++ addLoop target_group_type outcome rest
    | .peerFlood =>
        attempt ++ [.logError ("Rate limit exceeded. Stopping to avoid ban.")]
    | .floodWait s =>
        attempt ++ [.logWarning ("Flood wait error: Sleeping."), .sleepSeconds s]
          ++ pacingEvents ++ addLoop target_group_type outcome rest
    | .otherFailure msg =>
        attempt ++ [.logError ("Error adding " ++ user_name ++ ": " ++ msg)]
          ++ pacingEvents ++ addLoop target_group_type outcome rest

/-- `is_account_operational` (src/t_connector.py lines 57-76): the try
wraps `client.get_me`; success returns True, and each except branch
(FloodWaitError, PeerFloodError, Exception) returns False. -/
def is_account_operational (get_me_result : Except PyExc Unit) : Bool :=
  match get_me_result with
  | .ok _ => true
  | .error (.floodWaitError _) => false
  | .error .peerFloodError => false
  | .error _ => false

/-- `has_api_rate_limits` (lines 78-115): the try wraps
`client.get_dialogs` and the whole dialog-printing loop; success of the
body returns True, each except branch (FloodWaitError, PeerFloodError,
Exception) returns False. -/
def has_api_rate_limits (try_body_result : Except PyExc Unit) : Bool :=
  match try_body_result with
  | .ok _ => true
  | .error (.floodWaitError _) => false
  | .error .peerFloodError => false
  | .error _ => false

/-- `can_write_to_group` (lines 141-161): the try wraps
`client.get_entity`; ChatWriteForbiddenError and any other exception
map to False, success to True. -/
def can_write_to_group (get_entity_result : Except PyExc Unit) : Bool :=
  match get_entity_result with
  | .ok _ => true
  | .error .chatWriteForbiddenError => false
  | .error _ => false

/-- `can_access_user` (lines 117-139). The default resolution
`user_id = user_id if user_id else self.id` runs BEFORE the try: when
`user_id` is falsy (None or 0) and `self.id` was never assigned
(`connect` not run, or its `get_me` failed), the attribute access
raises AttributeError and propagates out of the method. Otherwise the
try wraps `client.get_entity` and each except branch
(UserPrivacyRestrictedError, Exception) returns False. -/
def can_access_user (self_id : Option Int) (user_id : Option Int)
    (get_entity_result : Except PyExc Unit) : Except PyExc Bool :=
  let resolved : Except PyExc Int :=
    match user_id with
    | some n =>
      if n = 0 then
        match self_id with
        | some i => .ok i
        | none => .error (.attributeError ("id"))
      else .ok n
    | none =>
      match self_id with
      | some i => .ok i
      | none => .error (.attributeError ("id"))
  match resolved with
  | .error e => .error e
  | .ok _ =>
    match get_entity_result with
    | .ok _ => .ok true
    | .error .userPrivacyRestrictedError => .ok false
    | .error _ => .ok false

/-- The parsed JSON secrets dict: each required field present or
absent. -/
structure SecretsDict where
  api_id : Option String
  api_hash : Option String
  phone : Option String
deriving DecidableEq, Repr

/-- The credential triple extracted by `__init__`. -/
structure Creds where
  api_id : String
  api_hash : String
  phone : String
deriving DecidableEq, Repr

/-- The try-block of `TelegramGroupManager.__init__` (src/t_addusers.py
lines 30-41): open + json.load (FileNotFoundError or a JSON decode
error), the three key lookups (KeyError on a missing key), then
`client.start` (an RPC error or anything else). -/
def initTryBlock (file_result : Except PyExc SecretsDict)
    (start_result : Except PyExc Unit) : Except PyExc Creds :=
  match file_result with
  | .error e => .error e
  | .ok secrets =>
    match secrets.api_id with
    | none => .error (.keyError ("api_id"))
    | some a =>
      match secrets.api_hash with
      | none => .error (.keyError ("api_hash"))
      | some h =>
        match secrets.phone with
        | none => .error (.keyError ("phone"))
        | some p =>
          match start_result with
          | .error e => .error e
          | .ok _ => .ok ⟨a, h, p⟩

/-- The except-chain of `__init__` (lines 42-53), clauses tried in
order: FileNotFoundError and KeyError each log an error and re-raise
the same exception. The third clause is `except RPCError` — but
RPCError is never imported in src/t_addusers.py, so for any other
exception, evaluating that clause raises NameError for the name
RPCError, which propagates unlogged; the `except Exception` clause
below is never reached. Returns the exception leaving `__init__` and
the error-log lines emitted by the handler. -/
def initExceptChain (e : PyExc) : PyExc × List String :=
  match e with
  | .fileNotFoundError => (.fileNotFoundError, ["Secrets file not found"])
  | .keyError k => (.keyError k, ["Missing key in secrets file: " ++ k])
  | _ => (.nameError ("RPCError"), [])

/-- `TelegramGroupManager.__init__`, composed: on try-block success the
credentials are stored; on failure the except-chain decides which
exception escapes and what is logged. -/
def managerInit (file_result : Except PyExc SecretsDict)
    (start_result : Except PyExc Unit) : Except PyExc Creds × List String :=
  match initTryBlock file_result start_result with
  | .ok c => (.ok c, [])
  | .error e =>
    let r := initExceptChain e
    (.error r.1, r.2)

/-- The mutable attributes of TelegramGroupManager / TelegramConnector:
the credential fields set in `__init__`, the account id set by
`connect`, and the group-type cache. -/
structure ManagerState where
  api_id : String
  api_hash : String
  phone : String
  account_id : Option Int
  cached_group_types : GroupTypeCache

/-- The dialog loop of `has_api_rate_limits` (src/t_connector.py lines
89-105) calls `get_group_type` for each group/channel dialog; it stops
at the first raised exception (then swallowed by the method's
except-chain). Only its cache effect matters to the state. -/
def groupTypeLoop (cache : GroupTypeCache) :
    List (Int × Except PyExc Entity) → GroupTypeCache
  | [] => cache
  | q :: rest =>
    let r := get_group_type cache q.1 q.2 false
    match r.1 with
    | .ok _ => groupTypeLoop r.2 rest
    | .error _ => r.2

/-- One public operation of the two classes, with the outcomes of the
external calls it performs supplied as data. `add_users_from_group`
touches the state only through its `get_group_type(target_group_id,
verbose=False)` call (and `run` only wraps it); `connect` assigns
`self.id` inside a try whose failure leaves it unassigned; the
remaining methods read but never write the attributes. -/
inductive Op where
  | getGroupTypeOp (group_id : Int) (entity_result : Except PyExc Entity) (verbose : Bool)
  | addUsersFromGroupOp (target_group_id : Int) (entity_result : Except PyExc Entity)
  | connectOp (get_me_result : Except PyExc Int)
  | isAccountOperationalOp (r : Except PyExc Unit)
  | hasApiRateLimitsOp (dialog_queries : List (Int × Except PyExc Entity))
  | canAccessUserOp (user_id : Option Int) (r : Except PyExc Unit)
  | canWriteToGroupOp (group_id : Int) (r : Except PyExc Unit)
  | disconnectOp

/-- State effect of each operation, read off the source. -/
def applyOp (op : Op) (s : ManagerState) : ManagerState :=
  match op with
  | .getGroupTypeOp gid er vb =>
      { s with cached_group_types := (get_group_type s.cached_group_types gid er vb).2 }
  | .addUsersFromGroupOp tgt er =>
      { s with cached_group_types := (get_group_type s.cached_group_types tgt er false).2 }
  | .connectOp r =>
      { s with account_id := match r with | .ok i => some i | .error _ => s.account_id }
  | .hasApiRateLimitsOp qs =>
      { s with cached_group_types := groupTypeLoop s.cached_group_types qs }
  | .isAccountOperationalOp _ => s
  | .canAccessUserOp _ _ => s
  | .canWriteToGroupOp _ _ => s
  | .disconnectOp => s

/-- C1: `users_to_add` contains exactly the source members whose id is
neither a target member id nor in the skip list: no target member id and
no skip-listed id appears, and every element comes from the source list. -/
theorem users_to_add_exact (source_members target_members : List Member)
    (users_to_skip : List Int) (m : Member) :
    m ∈ users_to_add source_members target_members users_to_skip ↔
      m ∈ source_members ∧
      m.id ∉ target_members.map Member.id ∧
      m.id ∉ users_to_skip := by
  simp [users_to_add, List.mem_filter, List.elem_iff, not_or]

/-- Concrete instance of C1: member with id 2 is kept, the target member
(id 1) and the skip-listed member (id 3) are excluded. -/
theorem users_to_add_exact_witness :
    (⟨2, none, none, none⟩ : Member) ∈
        users_to_add [⟨1, none, none, none⟩, ⟨2, none, none, none⟩, ⟨3, none, none, none⟩]
          [⟨1, none, none, none⟩] [3] ∧
      (⟨1, none, none, none⟩ : Member) ∉
        users_to_add [⟨1, none, none, none⟩, ⟨2, none, none, none⟩, ⟨3, none, none, none⟩]
          [⟨1, none, none, none⟩] [3] := by
  constructor
  · exact (users_to_add_exact _ _ _ _).mpr ⟨by decide, by decide, by decide⟩
  · intro h
    have := (users_to_add_exact [⟨1, none, none, none⟩, ⟨2, none, none, none⟩,
      ⟨3, none, none, none⟩] [⟨1, none, none, none⟩] [3] ⟨1, none, none, none⟩).mp h
    exact absurd this.2.1 (by decide)

/-- Helper: a cache hit returns the stored value at once, leaving the
cache unchanged and ignoring the entity result and verbosity. -/
theorem get_group_type_hit (cache : GroupTypeCache) (group_id : Int)
    (er : Except PyExc Entity) (vb : Bool) (v : String)
    (h : cache group_id = some v) :
    get_group_type cache group_id er vb = (.ok v, cache) := by
  simp [get_group_type, h]

/-- Helper: classifyEntity only ever succeeds with one of the three
real classifications. -/
theorem classifyEntity_mem (entity : Entity) (v : String)
    (h : classifyEntity entity = .ok v) :
    v = "basic_group" ∨ v = "supergroup" ∨ v = "channel" := by
  rcases entity with ⟨mg, bc, t⟩
  rcases mg with _ | mgb
  · simp [classifyEntity] at h
  · rcases mgb
    · rcases bc with _ | bcb
      · simp [classifyEntity] at h
      · rcases bcb <;> simp [classifyEntity] at h <;> simp [h]
    · simp [classifyEntity] at h
      simp [h]

/-- Helper: a call returning `.ok v` with `v ≠ "chat"` leaves the cache
holding `v` for that id. -/
theorem get_group_type_ok_cached (cache : GroupTypeCache) (group_id : Int)
    (er : Except PyExc Entity) (vb : Bool) (v : String)
    (hok : (get_group_type cache group_id er vb).1 = .ok v)
    (hne : v ≠ "chat") :
    (get_group_type cache group_id er vb).2 group_id = some v := by
  rcases hcg : cache group_id with _ | w
  · rcases er with e | entity
    · simp [get_group_type, hcg] at hok
    · rcases hc : classifyEntity entity with e2 | w
      · rcases vb with _ | _
        · simp [get_group_type, hcg, hc] at hok
          exact absurd hok.symm hne
        · rcases ht : entity.title with _ | t <;>
            simp [get_group_type, hcg, hc, ht] at hok
          exact absurd hok.symm hne
      · have hw : w = v := by
          rcases vb with _ | _
          · simpa [get_group_type, hcg, hc] using hok
          · rcases ht : entity.title with _ | t <;>
              simp [get_group_type, hcg, hc, ht] at hok
            exact hok
        rcases vb with _ | _
        · simp [get_group_type, hcg, hc, cacheInsert, hw]
        · rcases ht : entity.title with _ | t <;>
            simp [get_group_type, hcg, hc, ht, cacheInsert, hw]
  · have : w = v := by simpa [get_group_type, hcg] using hok
    simp [get_group_type, hcg, this]

/-- C3 (counterexample): on a cache miss, when the entity lookup itself
fails, get_group_type does not return the fallback "chat": the lookup
error propagates to the caller, because client.get_entity is called
outside the try block. -/
theorem get_group_type_lookup_error_cex :
    (get_group_type (fun _ => none) 7
        (.error (.rpcError ("network failure"))) false).1
      = .error (.rpcError ("network failure")) ∧
    (get_group_type (fun _ => none) 7
        (.error (.rpcError ("network failure"))) false).1
      ≠ .ok ("chat") := by
  exact ⟨rfl, fun h => nomatch h⟩

/-- C3 (amended): on a cache miss a failing entity lookup propagates
its error to the caller unchanged, the cache untouched; only when the
classification of a successfully fetched entity fails is the error
swallowed, the (non-verbose) call then returning the fallback "chat"
and leaving the cache unchanged. -/
theorem get_group_type_error_paths (cache : GroupTypeCache) (group_id : Int)
    (e err : PyExc) (entity : Entity) (verbose : Bool)
    (hmiss : cache group_id = none) :
    get_group_type cache group_id (.error e) verbose = (.error e, cache) ∧
      (classifyEntity entity = .error err →
        get_group_type cache group_id (.ok entity) false
          = (.ok ("chat"), cache)) := by
  refine ⟨by simp [get_group_type, hmiss], fun hc => by simp [get_group_type, hmiss, hc]⟩

/-- Concrete instance of the amended C3 at an empty cache. -/
theorem get_group_type_error_paths_witness :
    ((fun _ => none : GroupTypeCache) 7 = none) ∧
      get_group_type (fun _ => none) 7 (.error (.rpcError ("boom"))) true
        = (.error (.rpcError ("boom")), fun _ => none) ∧
      get_group_type (fun _ => none) 7 (.ok ⟨none, none, some ("T")⟩) false
        = (.ok ("chat"), fun _ => none) := by
  refine ⟨rfl, ?_, ?_⟩
  · exact (get_group_type_error_paths (fun _ => none) 7 (.rpcError ("boom"))
      (.attributeError ("megagroup")) ⟨none, none, some ("T")⟩ true rfl).1
  · exact (get_group_type_error_paths (fun _ => none) 7 (.rpcError ("boom"))
      (.attributeError ("megagroup")) ⟨none, none, some ("T")⟩ false rfl).2 rfl

/-- C4 (counterexample): two calls for the same identifier within one
run need not agree: a first call whose classification fails returns
"chat" without caching anything, and a second call re-runs the lookup
and can return "supergroup". -/
theorem get_group_type_not_stable_cex :
    (get_group_type (fun _ => none) 5
        (.ok ⟨none, none, some ("Chat A")⟩) false).1 = .ok ("chat") ∧
      (get_group_type
          ((get_group_type (fun _ => none) 5
              (.ok ⟨none, none, some ("Chat A")⟩) false).2)
          5 (.ok ⟨some true, some false, some ("Chat A")⟩) false).1
        = .ok ("supergroup") ∧
      ("chat" : String) ≠ "supergroup" := by
  exact ⟨rfl, rfl, by decide⟩

/-- C4 (amended): stability holds from the first call that returns a
non-"chat" classification: that value is then cached, and every later
call for the same identifier returns exactly it, leaving the cache
unchanged (whatever the later entity result or verbosity). -/
theorem get_group_type_stable_after_success (cache : GroupTypeCache)
    (group_id : Int) (er er2 : Except PyExc Entity) (vb vb2 : Bool) (v : String)
    (hok : (get_group_type cache group_id er vb).1 = .ok v)
    (hne : v ≠ "chat") :
    get_group_type (get_group_type cache group_id er vb).2 group_id er2 vb2
      = (.ok v, (get_group_type cache group_id er vb).2) :=
  get_group_type_hit _ _ _ _ _
    (get_group_type_ok_cached cache group_id er vb v hok hne)

/-- Concrete instance of the amended C4: after a successful first call,
a second call returns the cached value even though its entity lookup
would fail. -/
theorem get_group_type_stable_after_success_witness :
    (get_group_type (fun _ => none) 5
        (.ok ⟨some true, none, some ("G")⟩) false).1 = .ok ("supergroup") ∧
      get_group_type
          ((get_group_type (fun _ => none) 5
              (.ok ⟨some true, none, some ("G")⟩) false).2)
          5 (.error (.rpcError ("down"))) true
        = (.ok ("supergroup"),
            (get_group_type (fun _ => none) 5
              (.ok ⟨some true, none, some ("G")⟩) false).2) := by
  exact ⟨rfl, get_group_type_stable_after_success (fun _ => none) 5
    (.ok ⟨some true, none, some ("G")⟩) (.error (.rpcError ("down"))) false true
    "supergroup" rfl (by decide)⟩

/-- C5: the fallback "chat" is never written into _cached_group_types:
a cache all of whose values are among "basic_group" / "supergroup" /
"channel" still satisfies that after any get_group_type call; and a
call that returns "chat" leaves the cache unchanged with no entry for
that identifier, so the next call for the same identifier attempts the
lookup again. -/
theorem cache_never_stores_chat (cache : GroupTypeCache) (group_id : Int)
    (er : Except PyExc Entity) (verbose : Bool)
    (hinv : ∀ x v, cache x = some v →
      v = "basic_group" ∨ v = "supergroup" ∨ v = "channel") :
    (∀ x v, (get_group_type cache group_id er verbose).2 x = some v →
        v = "basic_group" ∨ v = "supergroup" ∨ v = "channel") ∧
      ((get_group_type cache group_id er verbose).1 = .ok ("chat") →
        (get_group_type cache group_id er verbose).2 = cache ∧
          cache group_id = none) := by
  rcases hcg : cache group_id with _ | w
  · rcases er with e | entity
    · refine ⟨?_, ?_⟩
      · simpa [get_group_type, hcg] using hinv
      · intro h; simp [get_group_type, hcg] at h
    · rcases hc : classifyEntity entity with e2 | w
      · have hch : (get_group_type cache group_id (.ok entity) verbose).2 = cache := by
          rcases verbose with _ | _
          · simp [get_group_type, hcg, hc]
          · rcases ht : entity.title with _ | t <;> simp [get_group_type, hcg, hc, ht]
        refine ⟨by rw [hch]; exact hinv, fun _ => ⟨hch, rfl⟩⟩
      · have hmem := classifyEntity_mem entity w hc
        have hins : (get_group_type cache group_id (.ok entity) verbose).2
            = cacheInsert cache group_id w := by
          rcases verbose with _ | _
          · simp [get_group_type, hcg, hc]
          · rcases ht : entity.title with _ | t <;> simp [get_group_type, hcg, hc, ht]
        refine ⟨?_, ?_⟩
        · intro x v hx
          rw [hins] at hx
          by_cases hxg : x = group_id
          · simp [cacheInsert, hxg] at hx
            exact hx ▸ hmem
          · simp [cacheInsert, hxg] at hx
            exact hinv x v hx
        · intro hok
          exfalso
          have : w = "chat" := by
            rcases verbose with _ | _
            · simpa [get_group_type, hcg, hc] using hok
            · rcases ht : entity.title with _ | t <;>
                simp [get_group_type, hcg, hc, ht] at hok
              exact hok
          rcases hmem with h3 | h3 | h3 <;> rw [h3] at this <;> exact absurd this (by decide)
  · refine ⟨by simpa [get_group_type, hcg] using hinv, ?_⟩
    intro hok
    exfalso
    have hw : w = "chat" := by simpa [get_group_type, hcg] using hok
    have := hinv group_id w hcg
    rcases this with h3 | h3 | h3 <;> rw [h3] at hw <;> exact absurd hw (by decide)

/-- Concrete instance of C5 at an empty cache and a classification
failure: the call returns "chat" and writes nothing. -/
theorem cache_never_stores_chat_witness :
    (∀ x v, (fun _ => none : GroupTypeCache) x = some v →
        v = "basic_group" ∨ v = "supergroup" ∨ v = "channel") ∧
      ((get_group_type (fun _ => none) 9 (.ok ⟨none, none, some ("C")⟩) false).1
          = .ok ("chat") →
        (get_group_type (fun _ => none) 9 (.ok ⟨none, none, some ("C")⟩) false).2
            = (fun _ => none : GroupTypeCache) ∧
          (fun _ => none : GroupTypeCache) 9 = none) := by
  have hempty : ∀ x v, (fun _ => none : GroupTypeCache) x = some v →
      v = "basic_group" ∨ v = "supergroup" ∨ v = "channel" := by
    intro x v h
    cases h
  exact ⟨hempty, (cache_never_stores_chat (fun _ => none) 9
    (.ok ⟨none, none, some ("C")⟩) false hempty).2⟩

/-- Helper: a single get_group_type call preserves every existing cache
entry — it writes only on a miss, and only at its own identifier. -/
theorem get_group_type_preserves (cache : GroupTypeCache) (gid2 : Int)
    (er : Except PyExc Entity) (vb : Bool) (group_id : Int) (v : String)
    (h : cache group_id = some v) :
    (get_group_type cache gid2 er vb).2 group_id = some v := by
  rcases hcg : cache gid2 with _ | w
  · rcases er with e | entity
    · simpa [get_group_type, hcg] using h
    · rcases hc : classifyEntity entity with e2 | w
      · have hch : (get_group_type cache gid2 (.ok entity) vb).2 = cache := by
          rcases vb with _ | _
          · simp [get_group_type, hcg, hc]
          · rcases ht : entity.title with _ | t <;> simp [get_group_type, hcg, hc, ht]
        rw [hch]; exact h
      · have hins : (get_group_type cache gid2 (.ok entity) vb).2
            = cacheInsert cache gid2 w := by
          rcases vb with _ | _
          · simp [get_group_type, hcg, hc]
          · rcases ht : entity.title with _ | t <;> simp [get_group_type, hcg, hc, ht]
        rw [hins]
        by_cases hxg : group_id = gid2
        · rw [hxg] at h; rw [h] at hcg; cases hcg
        · simpa [cacheInsert, hxg] using h
  · simpa [get_group_type, hcg] using h

/-- Helper: the dialog loop of has_api_rate_limits preserves every
existing cache entry. -/
theorem groupTypeLoop_preserves (qs : List (Int × Except PyExc Entity))
    (cache : GroupTypeCache) (group_id : Int) (v : String)
    (h : cache group_id = some v) :
    groupTypeLoop cache qs group_id = some v := by
  induction qs generalizing cache with
  | nil => simpa [groupTypeLoop] using h
  | cons q rest ih =>
    have hpres := get_group_type_preserves cache q.1 q.2 false group_id v h
    rcases hr : (get_group_type cache q.1 q.2 false).1 with e | w <;>
      simp [groupTypeLoop, hr]
    · exact hpres
    · exact ih _ hpres

/-- C6: a cache entry once written by get_group_type is never
overwritten, invalidated, or evicted by any later operation of the
class, and every later get_group_type call for that identifier returns
the stored value with the cache unchanged, without consulting the
client (the entity result and verbosity are irrelevant). -/
theorem cache_entry_permanent (op : Op) (s : ManagerState) (group_id : Int)
    (v : String) (h : s.cached_group_types group_id = some v) :
    (applyOp op s).cached_group_types group_id = some v ∧
      ∀ er vb, get_group_type s.cached_group_types group_id er vb
        = (.ok v, s.cached_group_types) := by
  refine ⟨?_, fun er vb => get_group_type_hit _ _ _ _ _ h⟩
  cases op with
  | getGroupTypeOp gid er vb => exact get_group_type_preserves _ gid er vb _ _ h
  | addUsersFromGroupOp tgt er => exact get_group_type_preserves _ tgt er false _ _ h
  | hasApiRateLimitsOp qs => exact groupTypeLoop_preserves qs _ _ _ h
  | connectOp r => exact h
  | isAccountOperationalOp r => exact h
  | canAccessUserOp uid r => exact h
  | canWriteToGroupOp gid r => exact h
  | disconnectOp => exact h

/-- Concrete instance of C6: an entry for id 3 survives an
add_users_from_group operation whose own lookup targets id 4, and a
later call for id 3 returns it even though its entity lookup would
fail. -/
theorem cache_entry_permanent_witness :
    ((fun x => if x = 3 then some ("channel") else none) : GroupTypeCache) 3
        = some ("channel") ∧
      (applyOp (.addUsersFromGroupOp 4 (.error (.rpcError ("down"))))
          ⟨"i", "h", "p", none, fun x => if x = 3 then some ("channel") else none⟩
        ).cached_group_types 3 = some ("channel") ∧
      get_group_type (fun x => if x = 3 then some ("channel") else none) 3
          (.error (.rpcError ("down"))) true
        = (.ok ("channel"), fun x => if x = 3 then some ("channel") else none) := by
  have base := cache_entry_permanent
    (.addUsersFromGroupOp 4 (.error (.rpcError ("down"))))
    ⟨"i", "h", "p", none, fun x => if x = 3 then some ("channel") else none⟩
    3 "channel" (by decide)
  exact ⟨by decide, base.1, base.2 (.error (.rpcError ("down"))) true⟩

/-- C9: the credential fields api_id, api_hash and phone are written
only at construction: no operation of TelegramGroupManager or
TelegramConnector changes any of them. -/
theorem credentials_immutable (op : Op) (s : ManagerState) :
    (applyOp op s).api_id = s.api_id ∧
      (applyOp op s).api_hash = s.api_hash ∧
      (applyOp op s).phone = s.phone := by
  cases op <;> simp [applyOp]

/-- Helper: a PeerFloodError truncates the trace — the users after the
flooding one contribute nothing. -/
theorem addLoop_halt (tt : String) (oc : Int → Outcome) (u : Member)
    (rest : List Member) (h : oc u.id = .peerFlood) :
    ∀ pre : List Member,
      addLoop tt oc (pre ++ u :: rest) = addLoop tt oc (pre ++ [u]) := by
  intro pre
  induction pre with
  | nil => simp [addLoop, h]
  | cons p pre ih =>
    simp only [List.cons_append, addLoop]
    cases hp : oc p.id <;> simp [ih]

/-- C2: in the add loop, a PeerFloodError halts the remainder (the
trace equals the trace with the remaining users removed, so no further
request is issued); a FloodWaitError emits a sleep of the
server-specified seconds and the loop continues with the remaining
users; a privacy restriction or any other exception logs it, skips
that one user, and the loop continues. -/
theorem addLoop_error_handling (tt : String) (oc : Int → Outcome)
    (u : Member) (pre rest : List Member) (s : Nat) (msg : String) :
    (oc u.id = .peerFlood →
        addLoop tt oc (pre ++ u :: rest) = addLoop tt oc (pre ++ [u])) ∧
      (oc u.id = .floodWait s →
        addLoop tt oc (u :: rest)
          = attemptEvents tt u
              ++ [.logWarning ("Flood wait error: Sleeping."), .sleepSeconds s]
              ++ pacingEvents ++ addLoop tt oc rest) ∧
      (oc u.id = .userPrivacyRestricted →
        addLoop tt oc (u :: rest)
          = attemptEvents tt u
              ++ [.logWarning ("Cannot add " ++ get_user_display_name u
                    ++ ": Privacy settings restricted.")]
              ++ pacingEvents ++ addLoop tt oc rest) ∧
      (oc u.id = .otherFailure msg →
        addLoop tt oc (u :: rest)
          = attemptEvents tt u
              ++ [.logError ("Error adding " ++ get_user_display_name u ++ ": " ++ msg)]
              ++ pacingEvents ++ addLoop tt oc rest) := by
  refine ⟨fun h => addLoop_halt tt oc u rest h pre, fun h => ?_, fun h => ?_, fun h => ?_⟩
  all_goals simp [addLoop, h]

/-- Concrete instance of C2: with the outcome of user 1 a
PeerFloodError, the trace over users 0, 1, 2 equals the trace over
users 0, 1 alone — user 2 is never attempted. -/
theorem addLoop_error_handling_witness :
    (fun i => if i = 1 then Outcome.peerFlood else .success) (1 : Int)
        = Outcome.peerFlood ∧
      addLoop "supergroup" (fun i => if i = 1 then Outcome.peerFlood else .success)
          ([⟨0, some ("a"), none, none⟩]
            ++ ⟨1, some ("b"), none, none⟩ :: [⟨2, some ("c"), none, none⟩])
        = addLoop "supergroup" (fun i => if i = 1 then Outcome.peerFlood else .success)
          ([⟨0, some ("a"), none, none⟩] ++ [⟨1, some ("b"), none, none⟩]) := by
  refine ⟨by decide, ?_⟩
  exact (addLoop_error_handling "supergroup"
    (fun i => if i = 1 then Outcome.peerFlood else .success)
    ⟨1, some ("b"), none, none⟩ [⟨0, some ("a"), none, none⟩]
    [⟨2, some ("c"), none, none⟩] 0 "").1 (by decide)

/-- C10: the display name is the username when present and non-empty,
else the whitespace-stripped concatenation of first and last name when
that is non-empty, else the string "Unknown User"; it is never the
empty string. -/
theorem display_name_spec (u : Member) :
    get_user_display_name u ≠ "" ∧
      (∀ s, u.username = some s → s ≠ "" → get_user_display_name u = s) ∧
      ((u.username = none ∨ u.username = some ("")) →
        strippedFullName u.first_name u.last_name ≠ "" →
        get_user_display_name u = strippedFullName u.first_name u.last_name) ∧
      ((u.username = none ∨ u.username = some ("")) →
        strippedFullName u.first_name u.last_name = "" →
        get_user_display_name u = "Unknown User") := by
  rcases hu : u.username with _ | s
  · by_cases hc : strippedFullName u.first_name u.last_name = "" <;>
      simp_all [get_user_display_name]
  · by_cases hs : s = "" <;>
      by_cases hc : strippedFullName u.first_name u.last_name = "" <;>
      simp_all [get_user_display_name]

/-- Concrete instance of C10: a member whose username is set gets it as
display name. -/
theorem display_name_spec_witness :
    (Member.mk 1 (some ("bob")) none none).username = some ("bob") ∧
      get_user_display_name ⟨1, some ("bob"), none, none⟩ = "bob" := by
  exact ⟨rfl, (display_name_spec ⟨1, some ("bob"), none, none⟩).2.1 "bob" rfl
    (by decide)⟩

/-- C7: at the failing inputs the constructor does not log and re-raise
the original exception. When the try-block of __init__ fails with
anything other than FileNotFoundError or KeyError — a client-startup
RPC error, or malformed JSON — evaluating the unimported name RPCError
in its except clause raises a NameError that escapes with no log line
(the original exception is replaced). The FileNotFoundError path, by
contrast, does log and re-raise as the claim states. -/
theorem managerInit_rpc_error_bug :
    managerInit (.ok ⟨some ("i"), some ("h"), some ("p")⟩)
        (.error (.rpcError ("start failed")))
      = (.error (.nameError ("RPCError")), []) ∧
      managerInit (.error .jsonDecodeError) (.ok ())
        = (.error (.nameError ("RPCError")), []) ∧
      managerInit (.error .fileNotFoundError) (.ok ())
        = (.error .fileNotFoundError, ["Secrets file not found"]) ∧
      managerInit (.ok ⟨none, some ("h"), some ("p")⟩) (.ok ())
        = (.error (.keyError ("api_id")), ["Missing key in secrets file: api_id"]) := by
  exact ⟨rfl, rfl, rfl, rfl⟩

/-- C8 (counterexample): can_access_user can propagate an exception
rather than return a boolean: with no (or a zero) user id supplied
before self.id has been assigned, the default resolution — which runs
outside the try/except — raises AttributeError out of the method. -/
theorem can_access_user_propagates_cex :
    can_access_user none none (.ok ()) = .error (.attributeError ("id")) ∧
      ∀ b : Bool, can_access_user none none (.ok ()) ≠ .ok b := by
  refine ⟨rfl, fun b => ?_⟩
  cases b <;> exact fun h => nomatch h

/-- C8 (amended): each diagnostic check maps the outcome of its try
body to a boolean — True exactly on success, False on any exception,
specifically recognized or not — and never propagates; except that
can_access_user resolves its defaulted user id before the try, so it
needs a non-falsy user id or an assigned self.id, and then it too
returns such a boolean. -/
theorem diagnostics_return_bool (r1 r2 r3 r4 : Except PyExc Unit)
    (self_id user_id : Option Int)
    (h : (user_id ≠ none ∧ user_id ≠ some 0) ∨ self_id ≠ none) :
    (is_account_operational r1 = true ↔ r1 = .ok ()) ∧
      (has_api_rate_limits r2 = true ↔ r2 = .ok ()) ∧
      (can_write_to_group r3 = true ↔ r3 = .ok ()) ∧
      ∃ b : Bool, can_access_user self_id user_id r4 = .ok b ∧
        (b = true ↔ r4 = .ok ()) := by
  refine ⟨?_, ?_, ?_, ?_⟩
  · rcases r1 with e | x
    · cases e <;> simp [is_account_operational]
    · simp [is_account_operational]
  · rcases r2 with e | x
    · cases e <;> simp [has_api_rate_limits]
    · simp [has_api_rate_limits]
  · rcases r3 with e | x
    · cases e <;> simp [can_write_to_group]
    · simp [can_write_to_group]
  · rcases user_id with _ | n
    · rcases self_id with _ | i
      · rcases h with ⟨hne, _⟩ | hid
        · exact absurd rfl hne
        · exact absurd rfl hid
      · rcases r4 with e | x
        · refine ⟨false, ?_, by simp⟩
          cases e <;> simp [can_access_user]
        · exact ⟨true, by simp [can_access_user], by simp⟩
    · by_cases hn : n = 0
      · subst hn
        rcases self_id with _ | i
        · rcases h with ⟨_, hne⟩ | hid
          · exact absurd rfl hne
          · exact absurd rfl hid
        · rcases r4 with e | x
          · refine ⟨false, ?_, by simp⟩
            cases e <;> simp [can_access_user]
          · exact ⟨true, by simp [can_access_user], by simp⟩
      · rcases r4 with e | x
        · refine ⟨false, ?_, by simp⟩
          cases e <;> simp [can_access_user, hn]
        · exact ⟨true, by simp [can_access_user, hn], by simp⟩

/-- Concrete instance of the amended C8: with an explicit user id the
check returns a boolean even before connect. -/
theorem diagnostics_return_bool_witness :
    (((some (5 : Int)) ≠ none ∧ (some (5 : Int)) ≠ some 0) ∨
        (none : Option Int) ≠ none) ∧
      ∃ b : Bool, can_access_user none (some 5) (.error .peerFloodError) = .ok b ∧
        (b = true ↔ (.error .peerFloodError : Except PyExc Unit) = .ok ()) := by
  refine ⟨Or.inl ⟨by decide, by decide⟩, ?_⟩
  exact (diagnostics_return_bool (.ok ()) (.ok ()) (.ok ())
    (.error .peerFloodError) none (some 5)
    (Or.inl ⟨by decide, by decide⟩)).2.2.2
